import Mathlib

/-!
Shallow embedding of the autodocker build/run orchestration engine
(`autodocker.py` together with `managers/` and `utils/`), and proofs about it.

Modelling conventions:
* A Python status dict value is a `Value` (string or integer field).
* A task's status-map entry (a Python dict) is a partial map `Entry : String → Option Value`;
  `dict.update(kwargs)` is `Entry.update`.
* The shared status map is `StatusMap : String → Option Entry`;
  `ContainerManager.update_status` is `update_status` (check-exists, initialize-if-absent,
  merge-fields, all under the status lock — the lock serialises the read-modify-write,
  so the sequential function below is the per-call semantics).
* External effects (subprocess exit codes, `os.makedirs` failures) are an oracle
  `WorkerEnv` consumed by the worker; the worker's observable behaviour
  (final status entry, docker cleanup requests, progress increments, stage updates,
  whether an exception escapes) is a `WorkerResult`.  `docker_worker` returns
  `Except String WorkerResult`: `.error` means an exception propagates out of the worker.
-/

namespace AutoDocker

/-- A value stored in a task's status-map entry (Python stores strings and ints). -/
inductive Value where
  | str (s : String)
  | int (n : Int)
deriving DecidableEq

/-- A task's status-map entry: a Python dict keyed by field name. -/
def Entry := String → Option Value

/-- The empty dict `{}`. -/
def Entry.empty : Entry := fun _ => none

/-- `entry.update(kwargs)`: fields present in `kvs` are (over)written, all others kept. -/
def Entry.update (e : Entry) (kvs : List (String × Value)) : Entry :=
  fun k =>
    match kvs.lookup k with
    | some v => some v
    | none => e k

/-- The shared status map: container name ↦ status entry. -/
def StatusMap := String → Option Entry

/-- `ContainerManager.update_status(**kwargs)` (managers/container_manager.py, lines 24-34):
under the status lock, create `status[name] = {}` if absent, then
`status[name].update(kwargs)`. -/
def update_status (m : StatusMap) (name : String) (kvs : List (String × Value)) : StatusMap :=
  fun n => if n = name then some (((m name).getD Entry.empty).update kvs) else m n

/-- The debug command recorded at build start
(`ContainerManager.record_build_start`). -/
def debug_command (image : String) : String :=
  "docker run --rm -it --entrypoint /bin/bash " ++ image

/-- `ContainerManager.record_build_start` as a merge on the task's own entry. -/
def record_build_start (e : Entry) (image : String) : Entry :=
  e.update [("status", .str "building"), ("image_name", .str image),
            ("debug_command", .str (debug_command image))]

/-- `ContainerManager.record_build_failure` (managers/container_manager.py, lines 44-55):
status `build_failed`, the literal code `125`, and the build log path. -/
def record_build_failure (e : Entry) (buildLog : String) : Entry :=
  e.update [("status", .str "build_failed"), ("code", .int 125), ("build_log", .str buildLog)]

/-- `ContainerManager.record_run_completion`. -/
def record_run_completion (e : Entry) (success : Bool) (runLog : String) : Entry :=
  e.update [("status", .str (if success then "success" else "run_failed")),
            ("code", .int (if success then 0 else 1)), ("run_log", .str runLog)]

/-- `ContainerManager.record_error`. -/
def record_error (e : Entry) (msg : String) : Entry :=
  e.update [("status", .str "error"), ("code", .int (-1)), ("error", .str msg)]

/-- Outcome of one external `subprocess.run` invocation:
either the subprocess completed with an exit code, or the invocation itself raised. -/
inductive SubOutcome where
  | exit (code : Int)
  | exn (msg : String)
deriving DecidableEq

/-- Oracle for one task's external effects.  `none` in an `Exn` field means the
corresponding directory/file operation succeeds; `some msg` means it raises with
message `msg`. -/
structure WorkerEnv where
  /-- `LogManager.__init__`'s `os.makedirs('logs')`, executed before the worker's try-block. -/
  logsRootExn : Option String
  /-- `get_log_path` for the build log (per-task `os.makedirs`), inside `build_image`
  but before its internal try-block. -/
  buildLogExn : Option String
  /-- The build log file path allocated by `get_log_path`. -/
  buildLog : String
  /-- The `docker build` subprocess outcome. -/
  buildSub : SubOutcome
  /-- `get_log_path` for the run log, inside `run_container` before its internal try-block. -/
  runLogExn : Option String
  /-- The run log file path allocated by `get_log_path`. -/
  runLog : String
  /-- The `docker run` subprocess outcome. -/
  runSub : SubOutcome

/-- Observable behaviour of one completed worker. -/
structure WorkerResult where
  /-- The task's final status-map entry (its record in the shared status map;
  by the frame property of `update_status` the worker touches no other entry). -/
  entry : Entry
  /-- Whether `DockerManager.run_container` was invoked. -/
  runInvoked : Bool
  /-- Container names force-removed by `cleanup_existing` (pre-run `docker rm -f`). -/
  cleanupExisting : List String
  /-- `(container, image)` pairs passed to `cleanup_container`
  (`docker rm -f` + `docker rmi -f`). -/
  cleanupRequests : List (String × String)
  /-- Stages reported to `ProgressManager.update_stage`, in order. -/
  stages : List String
  /-- Number of `ProgressManager.increment` calls (the worker's `finally`). -/
  increments : Nat

/-- `docker_worker` (autodocker.py, lines 971-1019) together with the parts of
`DockerManager.build_image` / `run_container` (managers/docker_manager.py) it calls.

Control-flow correspondence:
* `LogManager()` runs before the try-block: a failure there propagates (`.error`)
  with nothing recorded and no progress increment.
* Inside the try-block, `record_build_start` runs first; `build_image` reports
  stage `build`, then allocates the log path (may raise), then runs the build
  subprocess inside its own try (a raising subprocess is caught there and
  reported as build failure).  A nonzero build exit records `build_failed`
  (code 125) and returns without running.
* `run_container` reports stage `run`, calls `cleanup_existing`, allocates the
  run log path (may raise), then runs the container; on a nonzero exit or a
  raising subprocess it calls `cleanup_container` unless `keepfailed`.
* The worker's except-handler records `error` and swallows the exception;
  the `finally` clause increments progress exactly once on every path that
  reaches the try-block. -/
def docker_worker (env : WorkerEnv) (image container : String) (keepfailed : Bool) :
    Except String WorkerResult :=
  match env.logsRootExn with
  | some msg => .error msg
  | none =>
    let e0 := record_build_start Entry.empty image
    match env.buildLogExn with
    | some msg =>
      .ok { entry := record_error e0 msg, runInvoked := false, cleanupExisting := [],
            cleanupRequests := [], stages := ["build"], increments := 1 }
    | none =>
      let buildOk := match env.buildSub with
        | .exn _ => false
        | .exit c => decide (c = 0)
      if buildOk then
        match env.runLogExn with
        | some msg =>
          .ok { entry := record_error e0 msg, runInvoked := true,
                cleanupExisting := [container], cleanupRequests := [],
                stages := ["build", "run"], increments := 1 }
        | none =>
          let runOk := match env.runSub with
            | .exn _ => false
            | .exit c => decide (c = 0)
          .ok { entry := record_run_completion e0 runOk env.runLog, runInvoked := true,
                cleanupExisting := [container],
                cleanupRequests := if !runOk && !keepfailed then [(container, image)] else [],
                stages := ["build", "run"], increments := 1 }
      else
        .ok { entry := record_build_failure e0 env.buildLog, runInvoked := false,
              cleanupExisting := [], cleanupRequests := [], stages := ["build"],
              increments := 1 }

/-- Project a field of the final entry out of a worker result (`none` when the
worker raised and recorded nothing). -/
def okEntryField (res : Except String WorkerResult) (k : String) : Option (Option Value) :=
  match res with
  | .ok r => some (r.entry k)
  | .error _ => none

/-- Project the cleanup requests out of a worker result. -/
def okCleanupRequests (res : Except String WorkerResult) : Option (List (String × String)) :=
  match res with
  | .ok r => some r.cleanupRequests
  | .error _ => none

/-- Project the run-invoked flag out of a worker result. -/
def okRunInvoked (res : Except String WorkerResult) : Option Bool :=
  match res with
  | .ok r => some r.runInvoked
  | .error _ => none

/-- Progress increments contributed by a worker (a worker that raised before its
try-block never reaches the `finally` clause). -/
def incrementsOf (res : Except String WorkerResult) : Nat :=
  match res with
  | .ok r => r.increments
  | .error _ => 0

/-! Python strings are modelled as their character sequences where a character-level
operation (`.lower()`, `.replace(' ', '-')`, `.split('-')`, `in`) is involved,
since those are defined character by character. -/

/-- Python's substring test `needle in hay`. -/
def containsSub (needle : List Char) : List Char → Bool
  | [] => needle.isEmpty
  | c :: t => needle.isPrefixOf (c :: t) || containsSub needle t

/-- `sanitize_name` (utils/docker_utils.py, lines 15-25): `name.lower().replace(' ', '-')`. -/
def sanitize_name (s : String) : String :=
  String.mk ((s.toList.map Char.toLower).map (fun c => if c = ' ' then '-' else c))

/-- A platform record from the configuration tree (the fields the core reads). -/
structure Platform where
  name : String
  image : String
  version : String
  depends : List String
deriving DecidableEq

/-- The parts of `AutoDockerConfig` the orchestrator reads. -/
structure Config where
  platforms : List Platform
  cmakeVersions : List String

/-- `can_build_platform` (platform_utils.py, lines 6-20): reject a platform whose
image contains `redhat` (case-insensitively) when no RHEL subscription is
configured.  `rhel` is the truthiness of the module constant `RHEL_SUBSCRIPTION`. -/
def can_build_platform (rhel : Bool) (p : Platform) : Bool :=
  if containsSub "redhat".toList (p.image.toList.map Char.toLower) && !rhel then false
  else true

/-- `AutoDockerConfig.get_platform_cmake_versions` (autodocker.py, line 109):
the configured CMake versions if the platform depends on `cmake`, else `[None]`. -/
def get_platform_cmake_versions (cfg : Config) (p : Platform) : List (Option String) :=
  if p.depends.contains "cmake" then cfg.cmakeVersions.map some else [none]

/-- `get_container_name` (autodocker.py, lines 1063-1076). -/
def get_container_name (p : Platform) (v : Option String) : String :=
  sanitize_name p.name ++ (match v with | some cv => "-cmake-" ++ cv | none => "")

/-- `get_image_name` (autodocker.py, lines 1078-1091). -/
def get_image_name (p : Platform) (v : Option String) : String :=
  sanitize_name (if p.version = "latest" then p.image else p.version) ++
    (match v with | some cv => "-cmake-" ++ cv | none => "")

/-- `get_image_name_from_container` (utils/docker_utils.py, lines 57-71):
split on `-`; if `cmake` is among the parts, rejoin
`parts[:cmake_idx] + parts[cmake_idx:]` with `-`; else return the name. -/
def get_image_name_from_container (name : String) : String :=
  let parts := name.toList.splitOn '-'
  if parts.contains "cmake".toList then
    let i := parts.indexOf "cmake".toList
    String.mk (['-'].intercalate (parts.take i ++ parts.drop i))
  else name

/-- The debug command written per failed container by
`LogManager.write_failed_containers` (managers/log_manager.py, line 51). -/
def failed_debug_command (name : String) : String :=
  "docker run --rm -it --entrypoint /bin/bash " ++ get_image_name_from_container name

/-- The selection `[name for name, info in status.items() if info['status'] == 'build_failed']`
(managers/log_manager.py, line 46; identically autodocker.py, line 703). -/
def build_failed_names (status : List (String × Entry)) : List String :=
  (status.filter (fun p => decide (p.2 "status" = some (Value.str "build_failed")))).map
    (fun p => p.1)

/-- `LogManager.write_failed_containers` (managers/log_manager.py, lines 38-56; the
copy in autodocker.py, lines 695-713, is identical): first component is the
returned boolean, second the manifest written to `failed_containers.txt` —
one `(name, debug command)` line per selected task, `none` when nothing is written. -/
def write_failed_containers (status : List (String × Entry)) :
    Bool × Option (List (String × String)) :=
  let failed := build_failed_names status
  if failed = [] then (false, none)
  else (true, some (failed.map (fun n => (n, failed_debug_command n))))

/-- The exit code computed by `BuildManager.process_all_platforms`
(autodocker.py, lines 1205-1242): `1` when `write_failed_containers` returns
true, else `0`. -/
def process_all_platforms_exit (status : List (String × Entry)) : Nat :=
  if (write_failed_containers status).1 then 1 else 0

/-- The (platform, cmake-version) pairs for which `BuildManager.process_platform`
launches a worker: platforms rejected by `can_build_platform` contribute none. -/
def eligible_tasks (cfg : Config) (rhel : Bool) : List (Platform × Option String) :=
  cfg.platforms.flatMap (fun p =>
    if can_build_platform rhel p then (get_platform_cmake_versions cfg p).map (fun v => (p, v))
    else [])

/-- `self.total_containers` (BuildManager.__init__, autodocker.py, lines 1134-1139). -/
def total_containers (cfg : Config) (rhel : Bool) : Nat :=
  ((cfg.platforms.filter (can_build_platform rhel)).map
    (fun p => (get_platform_cmake_versions cfg p).length)).sum

/-- The worker launched for one task (`BuildManager.process_platform`,
autodocker.py, lines 1185-1203). -/
def task_result (envOf : String → WorkerEnv) (keepfailed : Bool)
    (t : Platform × Option String) : Except String WorkerResult :=
  docker_worker (envOf (get_container_name t.1 t.2)) (get_image_name t.1 t.2)
    (get_container_name t.1 t.2) keepfailed

/-- The final shared status map of a run, as the list of per-task entries: each
worker that reaches its try-block contributes exactly the entry for its container
name (a worker raising before the try-block contributes nothing).  Workers run
concurrently, but each one only ever writes its own key (frame property of
`update_status`), so the final map is interleaving-independent. -/
def run_status (cfg : Config) (rhel : Bool) (envOf : String → WorkerEnv)
    (keepfailed : Bool) : List (String × Entry) :=
  (eligible_tasks cfg rhel).flatMap (fun t =>
    match task_result envOf keepfailed t with
    | .ok r => [(get_container_name t.1 t.2, r.entry)]
    | .error _ => [])

/-- Total `ProgressManager.increment` calls observed over a whole run. -/
def run_increments (cfg : Config) (rhel : Bool) (envOf : String → WorkerEnv)
    (keepfailed : Bool) : Nat :=
  ((eligible_tasks cfg rhel).map (fun t => incrementsOf (task_result envOf keepfailed t))).sum

/-- The skip notices printed by `BuildManager.process_platform`
(autodocker.py, line 1168). -/
def run_skip_notices (cfg : Config) (rhel : Bool) : List String :=
  cfg.platforms.flatMap (fun p =>
    if can_build_platform rhel p then []
    else ["Skipping platform " ++ p.name ++ " - requirements not met"])

/-- The exit code of a whole orchestrator run. -/
def run_exit (cfg : Config) (rhel : Bool) (envOf : String → WorkerEnv)
    (keepfailed : Bool) : Nat :=
  process_all_platforms_exit (run_status cfg rhel envOf keepfailed)

/-- `ProgressManager.STAGES` (autodocker.py, line 572). -/
def STAGES : List String := ["dockerfile", "build", "run", "test", "cleanup"]

/-- The mutable state of `ProgressManager` (autodocker.py, lines 568-628):
the completed-step counter `self.current` (mirrored by the tqdm bar position,
advanced only by `increment`) and the per-container stage sets
`self.container_stages`. -/
structure ProgressState where
  current : Nat
  containerStages : String → List String

/-- `ProgressManager.update_stage` (autodocker.py, lines 595-607): under the lock,
add the stage to the container's set (creating the set if absent) and refresh the
displayed label.  The counter is not touched. -/
def ProgressState.update_stage (s : ProgressState) (container stage : String) :
    ProgressState :=
  { s with containerStages := fun n =>
      if n = container then
        (if (s.containerStages container).contains stage then s.containerStages container
         else stage :: s.containerStages container)
      else s.containerStages n }

/-- `ProgressManager.increment` (autodocker.py, lines 609-613). -/
def ProgressState.increment (s : ProgressState) : ProgressState :=
  { s with current := s.current + 1 }

/-- `PrintManager.print_file` (managers/print_manager.py, lines 51-66; the copy
in autodocker.py, lines 555-561, behaves identically): the messages it emits.
`readFile` is the file system: `.ok contents` when the read succeeds, `.error e`
when it raises with message `e`.  The catch-all except-handler turns a failed
read into an error message through `self.print`, so the function is total:
it never propagates an exception (hence the plain, non-`Except` result type). -/
def print_file (readFile : String → Except String String) (filePath : String) :
    List String :=
  match readFile filePath with
  | .ok contents => [contents]
  | .error e => ["Error reading file " ++ filePath ++ ": " ++ e]

/-- Project the status map to one field per entry (used to state concrete facts
about maps whose entries are functions). -/
def statusFields (status : List (String × Entry)) (k : String) :
    List (String × Option Value) :=
  status.map (fun p => (p.1, p.2 k))

/-! Concrete fixtures used by counterexamples and witnesses. -/

/-- A plain platform with no cmake dependency and a non-RedHat image. -/
def ubuntuPlatform : Platform :=
  { name := "ubuntu", image := "ubuntu", version := "20.04", depends := [] }

/-- A RedHat platform (rejected by `can_build_platform` without a subscription). -/
def redhatPlatform : Platform :=
  { name := "rhel9", image := "redhat/ubi9", version := "latest", depends := [] }

/-- A one-platform configuration. -/
def oneCfg : Config := { platforms := [ubuntuPlatform], cmakeVersions := [] }

/-- Environment: everything succeeds. -/
def envAllGood : WorkerEnv :=
  { logsRootExn := none, buildLogExn := none, buildLog := "logs/ubuntu/build_1.log",
    buildSub := .exit 0, runLogExn := none, runLog := "logs/ubuntu/run_1.log",
    runSub := .exit 0 }

/-- Environment: build succeeds, `docker run` exits 2. -/
def envRunFail : WorkerEnv :=
  { envAllGood with runSub := .exit 2 }

/-- Environment: `docker build` exits 1. -/
def envBuildFail1 : WorkerEnv :=
  { envAllGood with buildSub := .exit 1 }

/-- Environment: creating the per-task log directory raises. -/
def envLogDirFail : WorkerEnv :=
  { envAllGood with buildLogExn := some "Permission denied" }

/-- Whether an exception escaped the worker function. -/
def raisedOut (res : Except String WorkerResult) : Bool :=
  match res with
  | .ok _ => false
  | .error _ => true

/-- A concrete file system for witnesses: one readable log file, everything
else raises. -/
def demoFS : String → Except String String :=
  fun p => if p = "logs/ubuntu/run_1.log" then .ok "All tests passed"
           else .error "No such file or directory"

/-! Helper lemmas shared by several claims. -/

/-- Every worker that reaches its try-block runs the `finally` clause exactly once. -/
theorem incrementsOf_docker_worker (env : WorkerEnv) (image container : String)
    (keepfailed : Bool) (h : env.logsRootExn = none) :
    incrementsOf (docker_worker env image container keepfailed) = 1 := by
  unfold docker_worker
  rw [h]
  cases hb : env.buildLogExn with
  | some msg => rfl
  | none =>
    dsimp only
    split
    · cases hr : env.runLogExn with
      | some msg => rfl
      | none => rfl
    · rfl

/-- The `build_failed` selection is empty exactly when no entry has that status. -/
theorem build_failed_names_eq_nil (status : List (String × Entry)) :
    build_failed_names status = [] ↔
      ∀ p ∈ status, ¬(p.2 "status" = some (Value.str "build_failed")) := by
  unfold build_failed_names
  rw [List.map_eq_nil_iff, List.filter_eq_nil_iff]
  simp

/-- The orchestrator's exit code, in terms of the `build_failed` selection. -/
theorem exit_eq (status : List (String × Entry)) :
    process_all_platforms_exit status = if build_failed_names status = [] then 0 else 1 := by
  rw [process_all_platforms_exit, write_failed_containers]
  by_cases h : build_failed_names status = [] <;> simp [h]

/-- Summing the constant 1 over a list counts its elements. -/
theorem sum_map_one {α : Type} (l : List α) : (l.map (fun _ => 1)).sum = l.length := by
  induction l with
  | nil => rfl
  | cons a t ih => simp [ih, Nat.add_comm]

/-- One worker is launched per unit counted by `total_containers`. -/
theorem eligible_tasks_length (cfg : Config) (rhel : Bool) :
    (eligible_tasks cfg rhel).length = total_containers cfg rhel := by
  unfold eligible_tasks total_containers
  generalize cfg.platforms = ps
  induction ps with
  | nil => rfl
  | cons p t ih =>
    by_cases h : can_build_platform rhel p = true <;>
      simp [List.flatMap_cons, List.filter_cons, h, ih]

/-- The fixed prefix makes every generated debug command non-empty. -/
theorem debug_prefix_ne (s : String) :
    ("docker run --rm -it --entrypoint /bin/bash " ++ s) ≠ "" := by
  obtain ⟨l⟩ := s
  intro h
  have h2 : ("docker run --rm -it --entrypoint /bin/bash " ++ String.mk l).data = "".data :=
    congrArg String.data h
  rw [String.data_append] at h2
  have h3 : "".data = [] := rfl
  rw [h3] at h2
  exact List.cons_ne_nil _ _ h2

/-! The claims. -/

/-- C1 counterexample: a run whose only task ends `run_failed` (not success)
still exits 0, because only `build_failed` entries drive the exit code. -/
theorem exit_code_run_failed_counterexample :
    statusFields (run_status oneCfg true (fun _ => envRunFail) true) "status"
      = [("ubuntu", some (Value.str "run_failed"))] ∧
    some (Value.str "run_failed") ≠ some (Value.str "success") ∧
    run_exit oneCfg true (fun _ => envRunFail) true = 0 := by decide

/-- C1 (amended): the exit code is 1 exactly when some task's status is
`build_failed`; when every task's status is `success` the exit code is 0
(but `run_failed`/`error` statuses alone also give 0). -/
theorem exit_code_spec (status : List (String × Entry)) :
    (process_all_platforms_exit status = 1 ↔
      ∃ p ∈ status, p.2 "status" = some (Value.str "build_failed")) ∧
    ((∀ p ∈ status, p.2 "status" = some (Value.str "success")) →
      process_all_platforms_exit status = 0) := by
  constructor
  · rw [exit_eq]
    by_cases hb : build_failed_names status = []
    · rw [if_pos hb]
      constructor
      · intro h; exact absurd h (by decide)
      · intro h
        exfalso
        rw [build_failed_names_eq_nil] at hb
        obtain ⟨p, hp, hs⟩ := h
        exact hb p hp hs
    · rw [if_neg hb]
      constructor
      · intro _
        rw [build_failed_names_eq_nil] at hb
        push_neg at hb
        exact hb
      · intro _; rfl
  · intro h
    rw [exit_eq, if_pos]
    rw [build_failed_names_eq_nil]
    intro p hp
    rw [h p hp]
    simp

/-- Witness for the amended C1: an all-success run exits 0, a run with a
build failure exits 1. -/
theorem exit_code_spec_witness :
    process_all_platforms_exit (run_status oneCfg true (fun _ => envAllGood) false) = 0 ∧
    (process_all_platforms_exit (run_status oneCfg true (fun _ => envBuildFail1) false) = 1 ↔
      ∃ p ∈ run_status oneCfg true (fun _ => envBuildFail1) false,
        p.2 "status" = some (Value.str "build_failed")) :=
  ⟨(exit_code_spec (run_status oneCfg true (fun _ => envAllGood) false)).2 (by decide),
   (exit_code_spec (run_status oneCfg true (fun _ => envBuildFail1) false)).1⟩

/-- C2 counterexample: with a build exiting 1, the recorded exit code is the
constant 125, not the build invocation's exit code. -/
theorem build_exit_code_not_recorded_counterexample :
    okEntryField (docker_worker envBuildFail1 "20.04" "ubuntu" false) "status"
      = some (some (.str "build_failed")) ∧
    okEntryField (docker_worker envBuildFail1 "20.04" "ubuntu" false) "code"
      = some (some (.int 125)) ∧
    okEntryField (docker_worker envBuildFail1 "20.04" "ubuntu" false) "code"
      ≠ some (some (.int 1)) := by decide

/-- C2 (amended): a nonzero build exit records status `build_failed` with the
constant exit code 125 (whatever the build's exit code was), records the build
log path, leaves the `run_log` field absent, and never invokes the run
operation. -/
theorem build_failure_short_circuits_with_code_125 (env : WorkerEnv)
    (image container : String) (keepfailed : Bool) (c : Int)
    (h1 : env.logsRootExn = none) (h2 : env.buildLogExn = none)
    (h3 : env.buildSub = .exit c) (h6 : c ≠ 0) :
    okEntryField (docker_worker env image container keepfailed) "status"
      = some (some (.str "build_failed")) ∧
    okEntryField (docker_worker env image container keepfailed) "run_log" = some none ∧
    okEntryField (docker_worker env image container keepfailed) "code"
      = some (some (.int 125)) ∧
    okEntryField (docker_worker env image container keepfailed) "build_log"
      = some (some (.str env.buildLog)) ∧
    okRunInvoked (docker_worker env image container keepfailed) = some false := by
  have hc : decide (c = 0) = false := by simp [h6]
  unfold docker_worker
  rw [h1, h2, h3]
  simp only [hc]
  exact ⟨rfl, rfl, rfl, rfl, rfl⟩

/-- Witness for the amended C2 at build exit code 1. -/
theorem build_failure_short_circuits_witness :
    okEntryField (docker_worker envBuildFail1 "img" "cont" false) "status"
      = some (some (.str "build_failed")) ∧
    okEntryField (docker_worker envBuildFail1 "img" "cont" false) "run_log" = some none ∧
    okEntryField (docker_worker envBuildFail1 "img" "cont" false) "code"
      = some (some (.int 125)) ∧
    okEntryField (docker_worker envBuildFail1 "img" "cont" false) "build_log"
      = some (some (.str envBuildFail1.buildLog)) ∧
    okRunInvoked (docker_worker envBuildFail1 "img" "cont" false) = some false :=
  build_failure_short_circuits_with_code_125 envBuildFail1 "img" "cont" false 1
    rfl rfl rfl (by decide)

/-- C3 counterexample: one task and five stages — after the run the counter is 1
(one increment per worker), not `totalTasks * numStages = 5`. -/
theorem progress_counter_not_tasks_times_stages :
    run_increments oneCfg true (fun _ => envAllGood) false = 1 ∧
    total_containers oneCfg true = 1 ∧
    STAGES.length = 5 ∧
    run_increments oneCfg true (fun _ => envAllGood) false
      ≠ total_containers oneCfg true * STAGES.length := by decide

/-- C3 (amended): after all workers finish (each having reached its try-block),
the completed-step counter equals `totalTasks` — each worker increments exactly
once in its `finally` clause — and `update_stage` never touches the counter, so
re-entering an already-recorded (task, stage) pair never increments it. -/
theorem progress_counter_equals_total_tasks (cfg : Config) (rhel : Bool)
    (envOf : String → WorkerEnv) (keepfailed : Bool)
    (h : ∀ c, (envOf c).logsRootExn = none) :
    run_increments cfg rhel envOf keepfailed = total_containers cfg rhel ∧
    (∀ s container stage, (ProgressState.update_stage s container stage).current
      = s.current) := by
  constructor
  · rw [run_increments]
    have hmap : ∀ t ∈ eligible_tasks cfg rhel,
        incrementsOf (task_result envOf keepfailed t) = (fun _ => 1) t := by
      intro t _
      exact incrementsOf_docker_worker _ _ _ _ (h _)
    rw [List.map_congr_left hmap, sum_map_one, eligible_tasks_length]
  · intro s container stage
    rfl

/-- Witness for the amended C3 on a concrete one-task run. -/
theorem progress_counter_equals_total_tasks_witness :
    run_increments oneCfg true (fun _ => envAllGood) false = total_containers oneCfg true ∧
    (∀ s container stage, (ProgressState.update_stage s container stage).current
      = s.current) :=
  progress_counter_equals_total_tasks oneCfg true (fun _ => envAllGood) false (fun _ => rfl)

/-- C4 counterexample: when creating the per-task log directory raises, the
worker records status `error` with the message, but the exception does NOT
propagate out of the worker — it is swallowed. -/
theorem worker_exception_not_propagated_counterexample :
    okEntryField (docker_worker envLogDirFail "20.04" "ubuntu" false) "status"
      = some (some (.str "error")) ∧
    okEntryField (docker_worker envLogDirFail "20.04" "ubuntu" false) "error"
      = some (some (.str "Permission denied")) ∧
    raisedOut (docker_worker envLogDirFail "20.04" "ubuntu" false) = false := by decide

/-- C4 (amended): an exception raised inside the worker's pipeline try-block is
recorded as status `error` together with the exception message, and then
swallowed (the worker returns normally, still incrementing progress once)
rather than propagating. -/
theorem worker_records_error_and_swallows (env : WorkerEnv) (image container : String)
    (keepfailed : Bool) (msg : String) (h1 : env.logsRootExn = none)
    (h2 : env.buildLogExn = some msg) :
    okEntryField (docker_worker env image container keepfailed) "status"
      = some (some (.str "error")) ∧
    okEntryField (docker_worker env image container keepfailed) "error"
      = some (some (.str msg)) ∧
    okEntryField (docker_worker env image container keepfailed) "code"
      = some (some (.int (-1))) ∧
    raisedOut (docker_worker env image container keepfailed) = false ∧
    incrementsOf (docker_worker env image container keepfailed) = 1 := by
  unfold docker_worker
  rw [h1, h2]
  exact ⟨rfl, rfl, rfl, rfl, rfl⟩

/-- Witness for the amended C4 at a concrete failing environment. -/
theorem worker_records_error_and_swallows_witness :
    okEntryField (docker_worker envLogDirFail "img" "cont" true) "status"
      = some (some (.str "error")) ∧
    okEntryField (docker_worker envLogDirFail "img" "cont" true) "error"
      = some (some (.str "Permission denied")) ∧
    okEntryField (docker_worker envLogDirFail "img" "cont" true) "code"
      = some (some (.int (-1))) ∧
    raisedOut (docker_worker envLogDirFail "img" "cont" true) = false ∧
    incrementsOf (docker_worker envLogDirFail "img" "cont" true) = 1 :=
  worker_records_error_and_swallows envLogDirFail "img" "cont" true "Permission denied"
    rfl rfl

/-- C5 counterexample: a run whose only failure is `run_failed` writes no
manifest at all — non-success tasks other than `build_failed` get no entry. -/
theorem manifest_omits_run_failed_counterexample :
    statusFields (run_status oneCfg true (fun _ => envRunFail) true) "status"
      = [("ubuntu", some (Value.str "run_failed"))] ∧
    some (Value.str "run_failed") ≠ some (Value.str "success") ∧
    (write_failed_containers (run_status oneCfg true (fun _ => envRunFail) true)).2
      = none := by decide

/-- C5 (amended): when at least one task has status `build_failed`, the manifest
is written with exactly one entry per `build_failed` task — the task's name and a
non-empty debug command; tasks of any other status contribute no entry. -/
theorem manifest_lists_build_failed_only (status : List (String × Entry))
    (h : ∃ p ∈ status, p.2 "status" = some (Value.str "build_failed")) :
    (write_failed_containers status).1 = true ∧
    (write_failed_containers status).2
      = some ((build_failed_names status).map (fun n => (n, failed_debug_command n))) ∧
    (∀ n, n ∈ build_failed_names status ↔
      ∃ p ∈ status, p.1 = n ∧ p.2 "status" = some (Value.str "build_failed")) ∧
    (∀ n, failed_debug_command n ≠ "") := by
  have hne : ¬(build_failed_names status = []) := by
    rw [build_failed_names_eq_nil]
    push_neg
    exact h
  refine ⟨?_, ?_, ?_, ?_⟩
  · unfold write_failed_containers
    rw [if_neg hne]
  · unfold write_failed_containers
    rw [if_neg hne]
  · intro n
    unfold build_failed_names
    simp only [List.mem_map, List.mem_filter, decide_eq_true_eq]
    constructor
    · rintro ⟨p, ⟨hp, hs⟩, hn⟩
      exact ⟨p, hp, hn, hs⟩
    · rintro ⟨p, hp, hn, hs⟩
      exact ⟨p, ⟨hp, hs⟩, hn⟩
  · intro n
    unfold failed_debug_command
    exact debug_prefix_ne _

/-- Witness for the amended C5 at a concrete failed run. -/
theorem manifest_lists_build_failed_only_witness :
    (write_failed_containers (run_status oneCfg true (fun _ => envBuildFail1) false)).1
      = true ∧
    (write_failed_containers (run_status oneCfg true (fun _ => envBuildFail1) false)).2
      = some ((build_failed_names (run_status oneCfg true (fun _ => envBuildFail1) false)).map
          (fun n => (n, failed_debug_command n))) ∧
    (∀ n, n ∈ build_failed_names (run_status oneCfg true (fun _ => envBuildFail1) false) ↔
      ∃ p ∈ run_status oneCfg true (fun _ => envBuildFail1) false,
        p.1 = n ∧ p.2 "status" = some (Value.str "build_failed")) ∧
    (∀ n, failed_debug_command n ≠ "") :=
  manifest_lists_build_failed_only (run_status oneCfg true (fun _ => envBuildFail1) false)
    (by decide)

/-- C6: build exits 0 and run exits nonzero → final status is `run_failed`;
with `keepfailed = false` removal of exactly that task's container and image is
requested, with `keepfailed = true` no container-and-image removal is requested. -/
theorem run_failed_cleanup_policy (env : WorkerEnv) (image container : String)
    (keepfailed : Bool) (c : Int) (h1 : env.logsRootExn = none)
    (h2 : env.buildLogExn = none) (h3 : env.buildSub = .exit 0)
    (h4 : env.runLogExn = none) (h5 : env.runSub = .exit c) (h6 : c ≠ 0) :
    okEntryField (docker_worker env image container keepfailed) "status"
      = some (some (.str "run_failed")) ∧
    okCleanupRequests (docker_worker env image container keepfailed)
      = some (if keepfailed then [] else [(container, image)]) := by
  have hc : decide (c = 0) = false := by simp [h6]
  have h0 : decide ((0 : Int) = 0) = true := by decide
  unfold docker_worker
  rw [h1, h2, h3, h4, h5]
  simp only [hc, h0]
  constructor
  · rfl
  · cases keepfailed <;> rfl

/-- Witness for C6 with run exit code 2, for both values of `keepfailed`. -/
theorem run_failed_cleanup_policy_witness :
    (okEntryField (docker_worker envRunFail "img" "cont" false) "status"
      = some (some (.str "run_failed")) ∧
     okCleanupRequests (docker_worker envRunFail "img" "cont" false)
      = some (if false then [] else [("cont", "img")])) ∧
    (okEntryField (docker_worker envRunFail "img" "cont" true) "status"
      = some (some (.str "run_failed")) ∧
     okCleanupRequests (docker_worker envRunFail "img" "cont" true)
      = some (if true then [] else [("cont", "img")])) :=
  ⟨run_failed_cleanup_policy envRunFail "img" "cont" false 2 rfl rfl rfl rfl rfl (by decide),
   run_failed_cleanup_policy envRunFail "img" "cont" true 2 rfl rfl rfl rfl rfl (by decide)⟩

/-- C7: a platform rejected by `can_build_platform` contributes zero tasks to the
precomputed total, zero entries to the status map (no worker is launched for it),
produces a skip notice, and leaves the run's exit code unchanged. -/
theorem skipped_platform_contributes_nothing (ps qs : List Platform) (cv : List String)
    (p : Platform) (rhel : Bool) (envOf : String → WorkerEnv) (keepfailed : Bool)
    (h : can_build_platform rhel p = false) :
    total_containers ⟨ps ++ p :: qs, cv⟩ rhel = total_containers ⟨ps ++ qs, cv⟩ rhel ∧
    run_status ⟨ps ++ p :: qs, cv⟩ rhel envOf keepfailed
      = run_status ⟨ps ++ qs, cv⟩ rhel envOf keepfailed ∧
    ("Skipping platform " ++ p.name ++ " - requirements not met")
      ∈ run_skip_notices ⟨ps ++ p :: qs, cv⟩ rhel ∧
    run_exit ⟨ps ++ p :: qs, cv⟩ rhel envOf keepfailed
      = run_exit ⟨ps ++ qs, cv⟩ rhel envOf keepfailed := by
  have htasks : eligible_tasks ⟨ps ++ p :: qs, cv⟩ rhel
      = eligible_tasks ⟨ps ++ qs, cv⟩ rhel := by
    unfold eligible_tasks
    simp only [List.flatMap_append, List.flatMap_cons, h]
    simp [get_platform_cmake_versions]
  refine ⟨?_, ?_, ?_, ?_⟩
  · unfold total_containers
    simp only [List.filter_append, List.filter_cons, h]
    simp [get_platform_cmake_versions]
  · unfold run_status
    rw [htasks]
  · unfold run_skip_notices
    simp only [List.flatMap_append, List.flatMap_cons, h]
    simp
  · unfold run_exit run_status
    rw [htasks]

/-- Witness for C7: the RedHat platform is skipped without affecting the run. -/
theorem skipped_platform_contributes_nothing_witness :
    total_containers ⟨[] ++ redhatPlatform :: [ubuntuPlatform], []⟩ false
      = total_containers ⟨[] ++ [ubuntuPlatform], []⟩ false ∧
    run_status ⟨[] ++ redhatPlatform :: [ubuntuPlatform], []⟩ false
        (fun _ => envAllGood) false
      = run_status ⟨[] ++ [ubuntuPlatform], []⟩ false (fun _ => envAllGood) false ∧
    ("Skipping platform " ++ redhatPlatform.name ++ " - requirements not met")
      ∈ run_skip_notices ⟨[] ++ redhatPlatform :: [ubuntuPlatform], []⟩ false ∧
    run_exit ⟨[] ++ redhatPlatform :: [ubuntuPlatform], []⟩ false
        (fun _ => envAllGood) false
      = run_exit ⟨[] ++ [ubuntuPlatform], []⟩ false (fun _ => envAllGood) false :=
  skipped_platform_contributes_nothing [] [ubuntuPlatform] [] redhatPlatform false
    (fun _ => envAllGood) false (by decide)

/-- C8: `print_file` is total; a successful read emits the file's entire contents
as one message, a failed read emits one descriptive error message (naming the
path and the failure) through the same print path instead of raising. -/
theorem print_file_spec (readFile : String → Except String String) (filePath : String) :
    (∀ contents, readFile filePath = .ok contents →
      print_file readFile filePath = [contents]) ∧
    (∀ e, readFile filePath = .error e →
      print_file readFile filePath = ["Error reading file " ++ filePath ++ ": " ++ e]) := by
  constructor <;> intro x h <;> simp [print_file, h]

/-- Witness for C8 on a concrete file system. -/
theorem print_file_spec_witness :
    print_file demoFS "logs/ubuntu/run_1.log" = ["All tests passed"] ∧
    print_file demoFS "missing.log"
      = ["Error reading file " ++ "missing.log" ++ ": " ++ "No such file or directory"] :=
  ⟨(print_file_spec demoFS "logs/ubuntu/run_1.log").1 "All tests passed" rfl,
   (print_file_spec demoFS "missing.log").2 "No such file or directory" rfl⟩

/-- C9: `get_image_name_from_container` is the identity on every container name
(rejoining `parts[:i] + parts[i:]` with the split separator reconstructs the
input), so manifest debug commands reference the container name itself as the
image. -/
theorem get_image_name_from_container_is_id (name : String) :
    get_image_name_from_container name = name ∧
    failed_debug_command name
      = "docker run --rm -it --entrypoint /bin/bash " ++ name := by
  have hid : get_image_name_from_container name = name := by
    by_cases h : ((name.toList.splitOn '-').contains "cmake".toList) = true
    · simp only [get_image_name_from_container, h, if_true]
      rw [List.take_append_drop, List.intercalate_splitOn]
      rfl
    · simp only [get_image_name_from_container, h]
      simp
  exact ⟨hid, by rw [failed_debug_command, hid]⟩

/-- C10: `update_status` creates an empty entry for an absent task and merges the
given fields into the task's entry; fields not mentioned in the update keep their
previous value, and every other task's entry is left unchanged. -/
theorem update_status_frame_and_merge (m : StatusMap) (name : String)
    (kvs : List (String × Value)) :
    (∀ n, n ≠ name → update_status m name kvs n = m n) ∧
    (m name = none → update_status m name kvs name = some (Entry.empty.update kvs)) ∧
    (∀ e, m name = some e → update_status m name kvs name = some (e.update kvs)) ∧
    (∀ e k, kvs.lookup k = none → Entry.update e kvs k = e k) := by
  refine ⟨?_, ?_, ?_, ?_⟩
  · intro n hn; simp [update_status, hn]
  · intro hm; simp [update_status, hm]
  · intro e hm; simp [update_status, hm]
  · intro e k hk; simp [Entry.update, hk]

/-- Witness for C10 at a concrete map and update. -/
theorem update_status_frame_and_merge_witness :
    update_status (fun _ => none) "a" [("status", Value.str "building")] "b" = none ∧
    update_status (fun _ => none) "a" [("status", Value.str "building")] "a"
      = some (Entry.empty.update [("status", Value.str "building")]) ∧
    Entry.update Entry.empty [("status", Value.str "building")] "code" = Entry.empty "code" :=
  ⟨(update_status_frame_and_merge (fun _ => none) "a" _).1 "b" (by decide),
   (update_status_frame_and_merge (fun _ => none) "a" _).2.1 rfl,
   (update_status_frame_and_merge (fun _ => none) "a" _).2.2.2 Entry.empty "code" rfl⟩

end AutoDocker
